import Mathlib

/-!
# Verification of the Cashay cache orchestrator (src/Cashay.js)

A shallow embedding of the orchestrator class in src/Cashay.js, the only source
file of the repository.  The modules it imports (normalize/, query/, mutate/,
buildExecutionContext, helperClasses, utils) are not under src/; where one of
them decides a property it is modelled from the spec (doc comments starting
with "Modelled from the spec:"), otherwise it is kept abstract as a field of
the `Env` record of collaborators.

JavaScript conventions used throughout the embedding:
* `undefined` / absent values are `Option.none`;
* a thrown exception is an explicit `JsError` value in the result;
* effects on the outside world (the transport function and the state-container
  dispatch) are recorded in an explicit effect list; `console` logging is not
  modelled (it is unobservable to the store and the transport);
* plain objects used as maps are association lists keyed by `String`.
-/

namespace Cashay

/-- A thrown JavaScript exception. -/
inductive JsError where
  | typeError (msg : String)
  | genericError (msg : String)
deriving DecidableEq, Repr

/-- JSON-like document values: server replies, response data, variables.
Objects are encoded as `entry key value rest` chains and arrays as
`item head tail` chains (both terminated by `null`), which keeps the type
non-nested; the orchestrator never inspects document internals, it only moves
documents around and compares them structurally. -/
inductive Doc where
  | null
  | bool  (b : Bool)
  | num  (n : Int)
  | str  (s : String)
  | entry (key : String) (value : Doc) (rest : Doc)
  | item  (head : Doc) (tail : Doc)
deriving DecidableEq, Repr

/-- An entity record in the normalized store: field name to value. -/
abbrev Entity := List (String × Doc)

/-- A normalized store: type name to identifier to entity record. -/
abbrev Store := List (String × List (String × Entity))

/-- A GraphQL variables object. -/
abbrev Variables := List (String × Doc)

/-- An opaque handle identifying a transport function. -/
abbrev Transport := String

/-- Association-list lookup, modelling property access `obj[key]`. -/
def lookupA {α : Type} : List (String × α) → String → Option α
  | [], _ => none
  | e :: rest, k => if e.1 == k then some e.2 else lookupA rest k

/-- Association-list update, modelling property assignment `obj[key] = v`. -/
def upsert {α : Type} : List (String × α) → String → α → List (String × α)
  | [], k, v => [(k, v)]
  | e :: rest, k, v => if e.1 == k then (k, v) :: rest else e :: upsert rest k v

@[simp] theorem lookupA_nil {α : Type} (k : String) : lookupA ([] : List (String × α)) k = none := rfl

@[simp] theorem lookupA_cons {α : Type} (e : String × α) (rest : List (String × α)) (k : String) :
    lookupA (e :: rest) k = if e.1 == k then some e.2 else lookupA rest k := rfl

theorem lookupA_upsert {α : Type} (l : List (String × α)) (k : String) (v : α) :
    lookupA (upsert l k v) k = some v := by
  induction l with
  | nil => simp [upsert, lookupA]
  | cons e rest ih =>
    by_cases h : e.1 == k
    · simp [upsert, h, lookupA]
    · simp [upsert, h, lookupA, ih]

theorem lookupA_upsert_ne {α : Type} (l : List (String × α)) (k k' : String) (v : α)
    (h : k ≠ k') : lookupA (upsert l k v) k' = lookupA l k' := by
  induction l with
  | nil => simp [upsert, lookupA, h]
  | cons e rest ih =>
    by_cases he : e.1 == k
    · have he' : e.1 = k := by simpa using he
      simp [upsert, he, lookupA, he', h]
    · simp only [upsert, he, if_false, lookupA_cons]
      by_cases he2 : e.1 == k'
      · simp [he2]
      · simp [he2, ih]

/-! ## Dependency tracker (src/Cashay.js lines 86-100 and 265-300)

A dependency key is an entity location, written `'Type.id'` in the source
(comment at line 269).  It is modelled as the `(typeName, identifier)` pair:
the string join performed by the missing `makeNormalizedDeps` helper and the
`dep.split('.')` in `_addDeps` are modelled as a round trip, which is the
identity as long as type names and identifiers contain no dot (GraphQL type
names cannot; identifiers are assumed not to). -/

/-- An entity location `'Type.id'`, as the pair (type name, identifier). -/
abbrev DepKey := String × String

/-- The bidirectional dependency graph held by the orchestrator:
`normalizedDeps` maps a componentId to the set of entity locations its last
response touched (constructor comment lines 96-100); `denormalizedDeps` maps
an entity location to the set of componentIds touching it (lines 86-94). -/
structure DepState where
  normalizedDeps : String → Option (Finset DepKey)
  denormalizedDeps : String → String → Finset String

/-- Modelled from the spec: `makeNormalizedDeps` (query/queryHelpers.js is not
under src/) computes "the new identity-key set touched by the consumer's
latest response": the set of entity locations present in a normalized store
fragment. -/
def makeNormalizedDeps (entities : Store) : Finset DepKey :=
  (entities.flatMap fun ti => ti.2.map fun ie => (ti.1, ie.1)).toFinset

/-- Translation of `_addDeps(normalizedResponse, componentId)`, lines 265-300, taking the
already-computed key set.  When the component had no previous set, every new
key is unique and gets a back-reference.  Otherwise the loop at lines 277-284
splits the keys into `newUniques = new \ old` and leaves `old \ new` in
`oldNormalizedDeps`; lines 287-290 delete the componentId back-reference for
each key unique to the old set, lines 294-299 add one for each key unique to
the new set. -/
def addDeps (s : DepState) (newNormalizedDeps : Finset DepKey) (componentId : String) :
    DepState :=
  match s.normalizedDeps componentId with
  | none =>
      { normalizedDeps := fun c =>
          if c = componentId then some newNormalizedDeps else s.normalizedDeps c
        denormalizedDeps := fun e i =>
          if (e, i) ∈ newNormalizedDeps then insert componentId (s.denormalizedDeps e i)
          else s.denormalizedDeps e i }
  | some oldNormalizedDeps =>
      { normalizedDeps := fun c =>
          if c = componentId then some newNormalizedDeps else s.normalizedDeps c
        denormalizedDeps := fun e i =>
          if (e, i) ∈ oldNormalizedDeps \ newNormalizedDeps then
            (s.denormalizedDeps e i).erase componentId
          else if (e, i) ∈ newNormalizedDeps \ oldNormalizedDeps then
            insert componentId (s.denormalizedDeps e i)
          else s.denormalizedDeps e i }

/-- The dependency-graph symmetry invariant (constructor comments lines 86-100;
spec section 3): a componentId appears in `denormalizedDeps[T][id]` iff the
location `(T, id)` appears in that component's `normalizedDeps` set. -/
def DepSymmetric (s : DepState) : Prop :=
  ∀ c e i, c ∈ s.denormalizedDeps e i ↔
    ∃ d, s.normalizedDeps c = some d ∧ (e, i) ∈ d

theorem addDeps_normalizedDeps (s : DepState) (nd : Finset DepKey) (cid c : String) :
    (addDeps s nd cid).normalizedDeps c =
      if c = cid then some nd else s.normalizedDeps c := by
  cases h : s.normalizedDeps cid <;> simp [addDeps, h]

theorem addDeps_mem_denormalizedDeps (s : DepState) (h : DepSymmetric s)
    (nd : Finset DepKey) (cid c e i : String) :
    c ∈ (addDeps s nd cid).denormalizedDeps e i ↔
      (if c = cid then (e, i) ∈ nd else c ∈ s.denormalizedDeps e i) := by
  have hnot : ∀ (hn : s.normalizedDeps cid = none), cid ∉ s.denormalizedDeps e i := by
    intro hn hmem
    rcases (h cid e i).1 hmem with ⟨d, hd, _⟩
    rw [hn] at hd
    exact Option.noConfusion hd
  cases hOld : s.normalizedDeps cid with
  | none =>
    by_cases hc : c = cid
    · subst hc
      by_cases hk : (e, i) ∈ nd <;>
        simp [addDeps, hOld, hk, Finset.mem_insert, hnot hOld]
    · by_cases hk : (e, i) ∈ nd <;>
        simp [addDeps, hOld, hk, Finset.mem_insert, hc]
  | some old =>
    have hcid_iff : cid ∈ s.denormalizedDeps e i ↔ (e, i) ∈ old := by
      constructor
      · intro hmem
        rcases (h cid e i).1 hmem with ⟨d, hd, hm⟩
        rw [hOld] at hd
        cases hd
        exact hm
      · intro hm
        exact (h cid e i).2 ⟨old, hOld, hm⟩
    by_cases hc : c = cid
    · subst hc
      by_cases ho : (e, i) ∈ old <;> by_cases hn : (e, i) ∈ nd <;>
        simp [addDeps, hOld, Finset.mem_sdiff, ho, hn, hcid_iff,
          Finset.mem_erase, Finset.mem_insert]
    · by_cases ho : (e, i) ∈ old <;> by_cases hn : (e, i) ∈ nd <;>
        simp [addDeps, hOld, Finset.mem_sdiff, ho, hn,
          Finset.mem_erase, Finset.mem_insert, hc]

theorem addDeps_preserves_symmetry (s : DepState) (h : DepSymmetric s)
    (nd : Finset DepKey) (cid : String) : DepSymmetric (addDeps s nd cid) := by
  intro c e i
  rw [addDeps_mem_denormalizedDeps s h nd cid c e i, addDeps_normalizedDeps]
  by_cases hc : c = cid
  · simp [hc]
  · simp only [hc, if_false]
    exact h c e i

/-! ## Normalized responses, shortening, merging, flushing -/

/-- The `{entities, result}` shape produced by the normalizer (spec 4.1). -/
structure NormalizedResponse where
  entities : Store
  result : Doc
deriving DecidableEq, Repr

/-- The snapshot shape of the external state container, `this.state.data`:
entities plus per-component stored variables (spec section 6).  The source
field `variables` is spelled `vars` because `variables` is reserved in Lean. -/
structure CashayData where
  entities : Store
  vars : List (String × Variables)
deriving DecidableEq, Repr

/-- Entity lookup in a normalized store. -/
def lookupEntity (s : Store) (typeName id : String) : Option Entity :=
  (lookupA s typeName).bind fun tbl => lookupA tbl id

/-- Modelled from the spec: `shortenNormalizedResponse`
(query/queryHelpers.js is not under src/): "produce a fragment containing only
entities/fields that differ from what's already stored (byte/structural
inequality, not reference inequality), or undefined/empty if nothing differs"
(spec 4.4).  Modelled at entity granularity; `none` is the `undefined` result
the call sites test with `if (!normalizedResponseForStore)`. -/
def shortenNormalizedResponse (incoming : NormalizedResponse) (current : CashayData) :
    Option NormalizedResponse :=
  let kept := incoming.entities.filterMap fun ti =>
    let keptIds := ti.2.filter fun ie =>
      decide (lookupEntity current.entities ti.1 ie.1 ≠ some ie.2)
    if keptIds.isEmpty then none else some (ti.1, keptIds)
  if kept.isEmpty then none else some { entities := kept, result := incoming.result }

/-- Modelled from the spec: `mergeStores` (normalize/mergeStores.js is not
under src/): "given two Normalized Store fragments, produce their union; per
identity key, per field, the second argument's value overwrites the first's
(last-write-wins)" (spec 4.4). -/
def mergeEntities (a b : Entity) : Entity :=
  (a.filter fun f => (b.find? fun g => g.1 == f.1).isNone) ++ b

def mergeTypeTable (a b : List (String × Entity)) : List (String × Entity) :=
  (a.map fun ie =>
    match b.find? fun je => je.1 == ie.1 with
    | none => ie
    | some je => (ie.1, mergeEntities ie.2 je.2)) ++
  (b.filter fun je => (a.find? fun ie => ie.1 == je.1).isNone)

def mergeEntityStores (a b : Store) : Store :=
  (a.map fun ti =>
    match b.find? fun tj => tj.1 == ti.1 with
    | none => ti
    | some tj => (ti.1, mergeTypeTable ti.2 tj.2)) ++
  (b.filter fun tj => (a.find? fun ti => ti.1 == tj.1).isNone)

def mergeStores (a b : NormalizedResponse) : NormalizedResponse :=
  { entities := mergeEntityStores a.entities b.entities, result := b.result }

/-! ## Operation AST and execution context -/

/-- Argument state of an operation AST that is mutated in place: the
Minimal-Query Printer saves the original argument values and overwrites them
with the minimized ones; `rebuildOriginalArgs` restores them (spec 4.3). -/
inductive ArgsState where
  | original
  | minimized
deriving DecidableEq, Repr

/-- The operation node of a parsed query document.  Only the in-place argument
overwrite/restore cycle is observable to the orchestrator, so the operation
carries its argument state. -/
structure Operation where
  argsState : ArgsState
deriving DecidableEq, Repr

/-- Modelled from the spec: `rebuildOriginalArgs`
(normalize/denormalizeHelpers.js is not under src/) restores the saved
original argument values onto the operation AST in place. -/
def rebuildOriginalArgs (op : Operation) : Operation :=
  { op with argsState := .original }

/-- Modelled from the spec: the argument overwrite performed when the minimal
query is printed ("the original argument values on the AST are saved before
being overwritten", spec 4.3). -/
def overwriteArgsForMinimalQuery (op : Operation) : Operation :=
  { op with argsState := .minimized }

/-- The reserved cursor-pagination argument names (lines 19-24). -/
structure PaginationWords where
  before : String
  after : String
  first : String
  last : String
deriving DecidableEq, Repr

def defaultPaginationWords : PaginationWords :=
  { before := "before", after := "after", first := "first", last := "last" }

/-- The execution context bundle (spec: Execution Context Builder). -/
structure Context where
  operation : Operation
  vars : Option Variables
  paginationWords : PaginationWords
  idFieldName : String
  cashayDataState : CashayData
deriving DecidableEq, Repr

/-- Modelled from the spec: `buildExecutionContext` (buildExecutionContext.js
is not under src/) "assembles the fixed bundle (AST, variables, pagination
vocabulary, identity field name, schema, current entity store) passed through
every normalize/denormalize/diff call" (spec section 2). -/
def buildExecutionContext (ast : Operation) (cashayDataState : CashayData)
    (vars : Option Variables) (paginationWords : PaginationWords)
    (idFieldName : String) : Context :=
  { operation := ast, vars := vars, paginationWords := paginationWords,
    idFieldName := idFieldName, cashayDataState := cashayDataState }

/-! ## Cached query records and responses -/

/-- A denormalized response with its two extra flags (spec section 3). -/
structure Response where
  data : Doc
  isComplete : Bool
  firstRun : Bool
deriving DecidableEq, Repr

/-- The options stored on a cached query record.  `query` creates records with
only `transport` and `forceFetch` (line 154), yet `_addListenersHandler`
destructures `paginationWords`, `idFieldName` and `transport` out of them
(line 422), so the two extra fields are optional. -/
structure CachedQueryOptions where
  transport : Transport
  forceFetch : Bool
  paginationWords : Option PaginationWords
  idFieldName : Option String
deriving DecidableEq, Repr

/-- Modelled from the spec: the `CachedQuery` record (helperClasses.js is not
under src/): "Holds: the parsed AST, the transport/config for refetching, the
current Denormalized Response ... and the last error, if any" (spec section 3;
constructor comment lines 63-71). -/
structure CachedQuery where
  ast : Operation
  queryString : String
  options : CachedQueryOptions
  response : Option Response
  error : Option String
deriving DecidableEq, Repr

/-- Modelled from the spec: `flushDependencies` (query/flushDependencies.js is
not under src/): "for every identity key present in changedEntities other than
ones owned by the triggering consumer, drop the cached query record of every
other consumer depending on that key, forcing it to be rebuilt" (spec 4.5);
per the call-site comment (line 251) the dropped part is the cached response. -/
def flushDependencies (changed : Store) (triggeringComponentId : String)
    (denormalizedDeps : String → String → Finset String)
    (cachedQueries : List (String × CachedQuery)) : List (String × CachedQuery) :=
  let keys := changed.flatMap fun ti => ti.2.map fun ie => (ti.1, ie.1)
  let flushed : String → Bool := fun cid =>
    decide (cid ≠ triggeringComponentId) &&
      keys.any fun k => decide (cid ∈ denormalizedDeps k.1 k.2)
  cachedQueries.map fun e =>
    if flushed e.1 then (e.1, { e.2 with response := none }) else e

/-! ## Mutation-side records and the collaborator environment -/

/-- A namespaced per-consumer mutation AST; its internals are irrelevant to
the orchestrator, which only stores and merges them. -/
abbrev MutationAST := String

/-- A variable enhancer: "a pure function rewriting a variables object to its
namespaced wire form" (spec glossary). -/
abbrev VarEnhancer := Option Variables → Option Variables

/-- What `namespaceMutation` returns.  The two call sites in the source
destructure different field names out of it (`operation` at line 320,
`namespaceAST` at line 390), so both are carried. -/
structure NamespaceResult where
  operation : MutationAST
  namespaceAST : MutationAST
  variableEnhancers : List VarEnhancer

/-- A per-consumer single mutation entry, `singles[componentId]`
(constructor comment lines 53-58). -/
structure SingleMutation where
  ast : MutationAST
  variableEnhancers : List VarEnhancer

/-- A JavaScript array with object identity: `ref` models the reference
compared by `===`; `elems` its contents. -/
structure JsArray where
  ref : Nat
  elems : List String
deriving DecidableEq, Repr

/-- Strict equality `a === b` on (possibly undefined) array references. -/
def jsStrictEq : Option JsArray → Option JsArray → Bool
  | none, none => true
  | some a, some b => a.ref == b.ref
  | _, _ => false

/-- Modelled from the spec: `arraysShallowEqual` (utils.js is not under src/).
Per the spec's caching policy "set-equality, not reference-equality, is
sufficient to reuse", so the comparison is order-insensitive equality of the
componentId sets; applied to an undefined argument it does not hold. -/
def arraysShallowEqual : Option JsArray → Option JsArray → Bool
  | some a, some b => decide (a.elems.toFinset = b.elems.toFinset)
  | _, _ => false

/-- The cached mutation record for one mutationName (constructor comment
lines 46-61).  Nothing in src/Cashay.js ever assigns `fullMutation` or
`cachedComponentIds`; they are populated only by the missing helper layer. -/
structure CachedMutationEntry where
  fullMutation : Option String
  cachedComponentIds : Option JsArray
  variableEnhancers : List VarEnhancer
  singles : List (String × SingleMutation)

/-- Modelled from the spec: `new CachedMutation()` (helperClasses.js, per the constructor
comment: empty caches). -/
def newCachedMutation : CachedMutationEntry :=
  { fullMutation := none, cachedComponentIds := none,
    variableEnhancers := [], singles := [] }

/-- What a mutation handler does when invoked (line 425-429): it receives
(variables or null, server document data or undefined, the consumer's current
response data, the cashay data state, the invalidate setter).  The setter is
modelled by the returned `calledInvalidate` flag; the in-place mutation of the
response is modelled by the returned document. -/
structure HandlerOutcome where
  modifiedResponse : Option Doc
  calledInvalidate : Bool

/-- A mutation handler function registered via `query` options. -/
abbrev MutationHandler :=
  Option Variables → Option Doc → Doc → CashayData → HandlerOutcome

/-- A transport reply `{data, errors}` (spec section 6). -/
structure ServerReply where
  data : Option Doc
  errors : Option Doc
deriving DecidableEq, Repr

/-- The collaborators src/Cashay.js imports from modules that are not under
src/ and whose internals no claim depends on; they are kept abstract. -/
structure Env where
  parse : String → Operation
  parseMutation : String → MutationAST
  createResponse : Context → Response
  normalizeResponse : Doc → Context → NormalizedResponse
  denormalizeStoreData : Context → Doc
  printMinimalQuery : Operation → String → String
  stringifyJson : Doc → String
  createMutationFromQuery : Operation → String → MutationAST
  namespaceMutation : MutationAST → String → NamespaceResult
  mergeMutations : List (String × MutationAST) → String
  buildMutationContext : String → Option Variables → Option PaginationWords →
    Option String → CashayData → Context

/-! ## Orchestrator state and effects -/

/-- An entry of `this._invalidationQueue`: a pending forced refetch of a
consumer's canonical query (lines 436-443). -/
structure InvalidationEntry where
  componentId : String
  queryString : String
deriving DecidableEq, Repr

/-- A state-container action.  `INSERT_NORMALIZED` is dispatched with
componentId and variables for reads (lines 255-262) and bare for
mutation-driven writes (lines 474-480). -/
inductive Action where
  | insertNormalized (response : NormalizedResponse) (componentId : Option String)
      (vars : Option Variables)
deriving DecidableEq, Repr

/-- An observable interaction with the outside world. -/
inductive Effect where
  | transportRequest (transport : Transport) (queryString : Option String)
      (vars : Option Variables)
  | dispatch (action : Action)
  | refetch (entry : InvalidationEntry)
deriving DecidableEq, Repr

/-- The dispatched actions among a list of effects. -/
def dispatchedActions (effects : List Effect) : List Action :=
  effects.filterMap fun eff =>
    match eff with
    | .dispatch a => some a
    | _ => none

/-- The mutable state of a `Cashay` instance (constructor, lines 27-101).
`stateData` is the `this.state.data` snapshot; `mutationSchemaFieldNames` the
names in `this.schema.mutationSchema.fields`. -/
structure CashayState where
  stateData : CashayData
  cachedQueries : List (String × CachedQuery)
  cachedMutations : List (String × CachedMutationEntry)
  mutationHandlers : List (String × List (String × MutationHandler))
  deps : DepState
  willInvalidateListener : Bool
  invalidationQueue : List InvalidationEntry
  paginationWords : PaginationWords
  idFieldName : String
  transport : Transport
  mutationSchemaFieldNames : List String

/-! ## Read pipeline: _prepareMutations, query, queryServer -/

/-- Modelled from the spec: `checkMutationInSchema` (utils.js is not under
src/): "unknown mutation names fail fast" (spec sections 6 and 7). -/
def checkMutationInSchema (fieldNames : List String) (mutationName : String) :
    Except JsError Unit :=
  if mutationName ∈ fieldNames then .ok ()
  else .error (.genericError ("Invalid mutation: " ++ mutationName))

/-- The handler-registration loop of `_prepareMutations` (lines 304-311). -/
def registerMutationHandlers (s : CashayState) (componentId : String) :
    List (String × MutationHandler) → Except JsError CashayState
  | [] => .ok s
  | (mutationName, handler) :: rest =>
    match checkMutationInSchema s.mutationSchemaFieldNames mutationName with
    | .error e => .error e
    | .ok _ =>
      let table := (lookupA s.mutationHandlers mutationName).getD []
      registerMutationHandlers
        { s with mutationHandlers :=
            (upsert s.mutationHandlers mutationName (upsert table componentId handler)) }
        componentId rest

/-- The custom-mutation loop of `_prepareMutations` (lines 312-327): ensure a
cached mutation record exists and populate this component's single from the
parsed, namespaced custom mutation text. -/
def registerCustomMutations (env : Env) (s : CashayState) (componentId : String) :
    List (String × String) → Except JsError CashayState
  | [] => .ok s
  | (mutationName, mutationText) :: rest =>
    match checkMutationInSchema s.mutationSchemaFieldNames mutationName with
    | .error e => .error e
    | .ok _ =>
      let entry := (lookupA s.cachedMutations mutationName).getD newCachedMutation
      let entry1 :=
        if (lookupA entry.singles componentId).isSome then entry
        else
          let nm := env.namespaceMutation (env.parseMutation mutationText) componentId
          { entry with singles := (upsert entry.singles componentId
              { ast := nm.operation, variableEnhancers := nm.variableEnhancers }) }
      registerCustomMutations env
        { s with cachedMutations := upsert s.cachedMutations mutationName entry1 }
        componentId rest

/-- Translation of `_prepareMutations(componentId, mutationHandlers, customMutations)`,
lines 302-328.  `isObject(x)` (utils.js, missing) is modelled as presence. -/
def prepareMutations (env : Env) (s : CashayState) (componentId : String)
    (mutationHandlers : Option (List (String × MutationHandler)))
    (customMutations : Option (List (String × String))) : Except JsError CashayState :=
  let afterHandlers :=
    match mutationHandlers with
    | none => Except.ok s
    | some hs => registerMutationHandlers s componentId hs
  match afterHandlers with
  | .error e => .error e
  | .ok s1 =>
    match customMutations with
    | none => .ok s1
    | some cs => registerCustomMutations env s1 componentId cs

/-- The options object accepted by `query` (doc comment lines 115-126). -/
structure QueryOptions where
  componentId : Option String
  forceFetch : Bool
  vars : Option Variables
  transport : Option Transport
  mutationHandlers : Option (List (String × MutationHandler))
  customMutations : Option (List (String × String))

/-- The asynchronous `queryServer` invocation spawned by `query` at line 179:
its arguments, with the reply supplied separately at the await point. -/
structure ServerCall where
  transport : Transport
  context : Context
  queryString : String
  componentId : String

/-- What a `query` call produces: the synchronously returned response, the
updated orchestrator state, the spawned server call if any, and the execution
context built on the slow path. -/
structure QueryResult where
  response : Response
  state : CashayState
  serverCall : Option ServerCall
  context : Option Context

/-- The fast-path probe of `query` (lines 139-144): the cached response that
is returned immediately when one exists and no force-fetch was requested. -/
def fastResponse (s : CashayState) (componentId : String) (forceFetch : Bool) :
    Option Response :=
  if forceFetch then none
  else (lookupA s.cachedQueries componentId).bind fun cq => cq.response

/-- Translation of `query(queryString, options)`, lines 130-188.  The componentId defaults to
the query string (line 136); a cached response short-circuits unless
forceFetch (lines 142-144); stored variables win over the caller's
(line 147); the record is created on first use (lines 153-154); dependencies
are recorded for non-first runs (lines 166-170); an incomplete response spawns
`queryServer` with either the full query string (forceFetch or first run) or
the printed minimal query, whose printing overwrites the operation's arguments
in place (lines 173-180); finally `_prepareMutations` runs (line 186). -/
def query (env : Env) (s : CashayState) (queryString : String)
    (options : QueryOptions) : Except JsError QueryResult :=
  let forceFetch := options.forceFetch
  let componentId := options.componentId.getD queryString
  let fastResult := lookupA s.cachedQueries componentId
  match fastResponse s componentId forceFetch with
  | some r => .ok { response := r, state := s, serverCall := none, context := none }
  | none =>
    let vars :=
      match lookupA s.stateData.vars componentId with
      | some sv => some sv
      | none => options.vars
    let transport := options.transport.getD s.transport
    let cachedQuery :=
      match fastResult with
      | some cq => cq
      | none =>
        { ast := env.parse queryString, queryString := queryString,
          options := { transport := transport, forceFetch := true,
                       paginationWords := none, idFieldName := none },
          response := none, error := none }
    let context := buildExecutionContext cachedQuery.ast s.stateData vars
      s.paginationWords s.idFieldName
    let response := env.createResponse context
    let cachedQuery1 := { cachedQuery with response := some response }
    let s1 := { s with cachedQueries := upsert s.cachedQueries componentId cachedQuery1 }
    let s2 :=
      if response.firstRun then s1
      else
        { s1 with deps := (addDeps s1.deps
            (makeNormalizedDeps (env.normalizeResponse response.data context).entities)
            componentId) }
    let serverCall : Option ServerCall :=
      if response.isComplete then none
      else if forceFetch || response.firstRun then
        some { transport := transport, context := context,
               queryString := queryString, componentId := componentId }
      else
        some { transport := transport,
               context := { context with
                 operation := overwriteArgsForMinimalQuery context.operation },
               queryString := env.printMinimalQuery context.operation s.idFieldName,
               componentId := componentId }
    let s3 :=
      if response.isComplete then s2
      else if forceFetch || response.firstRun then s2
      else
        { s2 with cachedQueries := (upsert s2.cachedQueries componentId
            { cachedQuery1 with
                ast := overwriteArgsForMinimalQuery context.operation }) }
    match prepareMutations env s3 componentId options.mutationHandlers
        options.customMutations with
    | .error e => .error e
    | .ok s4 =>
      .ok { response := response, state := s4, serverCall := serverCall,
            context := some context }

/-- What `queryServer` produces: an outcome (exceptions cross the async
boundary as a rejected promise), the updated state, the observable effects in
order, and the operation AST as left on the consumer's canonical record. -/
structure QueryServerResult where
  outcome : Except JsError Unit
  state : CashayState
  effects : List Effect
  operation : Operation

/-- Translation of `queryServer(transport, context, minimizedQueryString, componentId)`,
lines 203-263.  The transport request is the first effect; a reply without
data records the stringified errors on the cached record and stops
(lines 211-216); otherwise the reply is normalized and shortened against the
current store, an empty shortening stops before anything else happens
(line 231) - in particular before `rebuildOriginalArgs` at line 238; on the
success path the local partial is re-created and merged with the reply, the
arguments are restored, the response re-created, dependencies updated, stale
dependents flushed, and the (unshortened) normalized reply dispatched with
componentId and variables (lines 233-262). -/
def queryServer (env : Env) (s : CashayState) (call : ServerCall)
    (reply : ServerReply) : QueryServerResult :=
  let context := call.context
  let vars := context.vars
  let effects0 : List Effect :=
    [.transportRequest call.transport (some call.queryString) vars]
  match reply.data with
  | none =>
    match lookupA s.cachedQueries call.componentId with
    | none =>
      { outcome := .error (.typeError "Cannot set property error of undefined"),
        state := s, effects := effects0, operation := context.operation }
    | some cq =>
      { outcome := .ok (),
        state := { s with cachedQueries := (upsert s.cachedQueries call.componentId
          { cq with error := reply.errors.map env.stringifyJson }) },
        effects := effects0, operation := context.operation }
  | some d =>
    let data := env.denormalizeStoreData context
    let normalizedPartialResponse := env.normalizeResponse data context
    let normalizedMinimizedQueryResponse := env.normalizeResponse d context
    match shortenNormalizedResponse normalizedMinimizedQueryResponse s.stateData with
    | none =>
      { outcome := .ok (), state := s, effects := effects0,
        operation := context.operation }
    | some shortened =>
      let fullNormalizedResponse :=
        mergeStores normalizedPartialResponse normalizedMinimizedQueryResponse
      let op1 := rebuildOriginalArgs context.operation
      let reducedContext :=
        { context with
            operation := op1
            cashayDataState := ({ entities := fullNormalizedResponse.entities,
                                  vars := context.cashayDataState.vars }) }
      match lookupA s.cachedQueries call.componentId with
      | none =>
        { outcome := .error (.typeError "cachedQuery.createResponse is not a function"),
          state := s, effects := effects0, operation := op1 }
      | some cq =>
        let resp := env.createResponse reducedContext
        let cq1 := { cq with response := some resp, ast := op1 }
        let s1 := { s with cachedQueries := upsert s.cachedQueries call.componentId cq1 }
        let s2 := { s1 with deps := (addDeps s1.deps
            (makeNormalizedDeps fullNormalizedResponse.entities) call.componentId) }
        let s3 := { s2 with cachedQueries := (flushDependencies shortened.entities
            call.componentId s2.deps.denormalizedDeps s2.cachedQueries) }
        { outcome := .ok (), state := s3,
          effects := effects0 ++ [.dispatch (.insertNormalized
            normalizedMinimizedQueryResponse (some call.componentId) vars)],
          operation := op1 }

/-! ## Write pipeline: mutate, _createMutationsFromQueries,
_addListenersHandler, _mutateServer -/

/-- Modelled from the spec: `makeComponentsToUpdate` (mutate/mutationHelpers.js
is not under src/): "resolve the active consumer set (either explicitly
supplied or derived from which consumers have registered a handler or a query
for that name)" (spec 4.7); a falsy result stands for the empty set. -/
def makeComponentsToUpdate (mutationName : String)
    (possibleComponentIds : Option JsArray)
    (cachedQueries : List (String × CachedQuery))
    (mutationHandlers : List (String × List (String × MutationHandler))) :
    Option (List String) :=
  let _ := cachedQueries
  let resolved :=
    match possibleComponentIds with
    | some arr => arr.elems
    | none => ((lookupA mutationHandlers mutationName).getD []).map Prod.fst
  if resolved.isEmpty then none else some resolved

/-- Lines 339-348: the cached merged document is reused when `fullMutation`
exists and the caller's componentId array is reference-equal (`===`) or
shallow-equal to the cached one (the `console.warn` on the shallow-equal
branch is not modelled). -/
def resolveMutationString (cm : CachedMutationEntry)
    (possibleComponentIds : Option JsArray) : Option String :=
  match cm.fullMutation with
  | none => none
  | some fm =>
    if jsStrictEq possibleComponentIds cm.cachedComponentIds then some fm
    else if arraysShallowEqual possibleComponentIds cm.cachedComponentIds then some fm
    else none

/-- Line 366: `variableEnhancers.reduce((enhancer, reduction) =>
enhancer(reduction), variables)`.  The callback names its accumulator
`enhancer` and its current element `reduction`, so each step applies the
accumulator - initially the plain variables object - as a function to the
current enhancer; with a non-empty enhancer list the first step throws,
with an empty list reduce returns `variables` untouched. -/
def applyVariableEnhancers (enhancers : List VarEnhancer)
    (vars : Option Variables) : Except JsError (Option Variables) :=
  match enhancers with
  | [] => .ok vars
  | _ :: _ => .error (.typeError "enhancer is not a function")

/-- Translation of `_createMutationsFromQueries(componentIds, mutationName, variables)`,
lines 378-397: ensure the cached mutation record exists (line 383) and derive
a namespaced single from each consumer's cached query AST unless one is
already cached.  A consumer without a cached query record makes the
destructuring at line 387 throw. -/
def createMutationsFromQueries (env : Env) (mutationName : String) :
    CashayState → List String → (CashayState × Option JsError)
  | s, [] => (s, none)
  | s, componentId :: rest =>
    let entry := (lookupA s.cachedMutations mutationName).getD newCachedMutation
    if (lookupA entry.singles componentId).isSome then
      createMutationsFromQueries env mutationName
        { s with cachedMutations := (upsert s.cachedMutations mutationName entry) } rest
    else
      match lookupA s.cachedQueries componentId with
      | none =>
        ({ s with cachedMutations := (upsert s.cachedMutations mutationName entry) },
         some (.typeError "Cannot destructure property ast of undefined"))
      | some cq =>
        let mutationAST := env.createMutationFromQuery cq.ast mutationName
        let nm := env.namespaceMutation mutationAST componentId
        let entry1 := { entry with singles := (upsert entry.singles componentId
            { ast := nm.namespaceAST, variableEnhancers := nm.variableEnhancers }) }
        createMutationsFromQueries env mutationName
          { s with cachedMutations := (upsert s.cachedMutations mutationName entry1) } rest

/-- Lines 357-362: look up each componentId's single, collect the ASTs keyed
by componentId and push all their variable enhancers, in list order. -/
def collectSingles (singles : List (String × SingleMutation)) :
    List String → Option (List (String × MutationAST) × List VarEnhancer)
  | [] => some ([], [])
  | cid :: rest =>
    match lookupA singles cid with
    | none => none
    | some single =>
      match collectSingles singles rest with
      | none => none
      | some (pairs, enhancers) =>
        some ((cid, single.ast) :: pairs, single.variableEnhancers ++ enhancers)

/-- One handler invocation as observed during a listeners pass: which
componentId's handler ran and which (variables, server document) pair it was
given (lines 425-429). -/
structure HandlerInvocation where
  componentId : String
  vars : Option Variables
  serverData : Option Doc
deriving DecidableEq, Repr

/-- What `_addListenersHandler` produces: outcome, updated state, dispatched
effects, the handler invocations in order, and the accumulated
`allNormalizedChanges` that gets shortened at line 469. -/
structure ListenersResult where
  outcome : Except JsError Unit
  state : CashayState
  effects : List Effect
  invocations : List HandlerInvocation
  allNormalizedChanges : NormalizedResponse

/-- The per-componentId loop of `_addListenersHandler` (lines 418-467).
Each iteration resolves the consumer's handler and cached result, invokes the
handler - optimistically with (variables, null) or on a reply with
(null, docFromServer.data) - and then checks the invalidate flag: when set it
is reset (line 434) and the next statement calls `.set` on
`this._invalidationQueue`, which the constructor initialized as an Array
(line 77); Arrays have no `set` method, so the pass throws a TypeError there.
Otherwise a returned document replaces the consumer's response data (the
source re-wraps the in-place-mutated response object at line 452, modelled by
storing the returned document), is normalized, and merged into the running
changes. -/
def handlerLoop (env : Env) (cashayDataState : CashayData)
    (listenerMap : Option (List (String × MutationHandler)))
    (docFromServer : Option ServerReply) (vars : Option Variables) :
    CashayState → NormalizedResponse → List HandlerInvocation → List String →
    (Except JsError Unit × CashayState × NormalizedResponse × List HandlerInvocation)
  | s, acc, inv, [] => (.ok (), s, acc, inv)
  | s, acc, inv, componentId :: rest =>
    match listenerMap with
    | none =>
      (.error (.typeError "Cannot read properties of undefined listenerMap"), s, acc, inv)
    | some lm =>
      match lookupA lm componentId with
      | none => (.error (.typeError "resolve is not a function"), s, acc, inv)
      | some resolve =>
        match lookupA s.cachedQueries componentId with
        | none =>
          (.error (.typeError "Cannot destructure property queryString of undefined"),
           s, acc, inv)
        | some cachedResult =>
          match cachedResult.response with
          | none =>
            (.error (.typeError "Cannot destructure property data of undefined"),
             s, acc, inv)
          | some response =>
            let serverDataArg := docFromServer.bind fun r => r.data
            let varsArg := if docFromServer.isSome then none else vars
            let outcome := resolve varsArg serverDataArg response.data cashayDataState
            let inv1 := inv ++ [⟨componentId, varsArg, serverDataArg⟩]
            if s.willInvalidateListener || outcome.calledInvalidate then
              (.error (.typeError "this._invalidationQueue.set is not a function"),
               { s with willInvalidateListener := false }, acc, inv1)
            else
              match outcome.modifiedResponse with
              | none =>
                handlerLoop env cashayDataState listenerMap docFromServer vars
                  s acc inv1 rest
              | some modifiedDoc =>
                let s1 := { s with cachedQueries := (upsert s.cachedQueries componentId
                    { cachedResult with
                        response := some { response with data := modifiedDoc } }) }
                let context := env.buildMutationContext cachedResult.queryString
                  (lookupA cashayDataState.vars componentId)
                  cachedResult.options.paginationWords cachedResult.options.idFieldName
                  cashayDataState
                let normalizedModifiedResponse := env.normalizeResponse modifiedDoc context
                handlerLoop env cashayDataState listenerMap docFromServer vars
                  s1 (mergeStores acc normalizedModifiedResponse) inv1 rest

/-- Translation of `_addListenersHandler(mutationName, componentIdsToUpdate, docFromServer,
variables)`, lines 413-481.  Iterating over an undefined componentIdsToUpdate
throws; after the loop the accumulated changes are shortened against the
entry-time data state and, only when something differs, a bare
`INSERT_NORMALIZED` write is dispatched (lines 469-480). -/
def addListenersHandler (env : Env) (s : CashayState) (mutationName : String)
    (componentIdsToUpdate : Option (List String)) (docFromServer : Option ServerReply)
    (vars : Option Variables) : ListenersResult :=
  let listenerMap := lookupA s.mutationHandlers mutationName
  let cashayDataState := s.stateData
  match componentIdsToUpdate with
  | none =>
    { outcome := .error (.typeError "componentIdsToUpdate is not iterable"),
      state := s, effects := [], invocations := [],
      allNormalizedChanges := { entities := [], result := .null } }
  | some cids =>
    match handlerLoop env cashayDataState listenerMap docFromServer vars s
        { entities := [], result := .null } [] cids with
    | (.error e, s1, acc, inv) =>
      { outcome := .error e, state := s1, effects := [], invocations := inv,
        allNormalizedChanges := acc }
    | (.ok _, s1, acc, inv) =>
      match shortenNormalizedResponse acc cashayDataState with
      | none =>
        { outcome := .ok (), state := s1, effects := [], invocations := inv,
          allNormalizedChanges := acc }
      | some shortened =>
        { outcome := .ok (), state := s1,
          effects := [.dispatch (.insertNormalized shortened none none)],
          invocations := inv, allNormalizedChanges := acc }

/-- The options object accepted by `mutate`. -/
structure MutateOptions where
  vars : Option Variables
  transport : Option Transport

/-- The pending `_mutateServer(mutationName, componentIdsToUpdate,
mutationString, options)` invocation spawned at line 375. -/
structure MutationServerCall where
  mutationName : String
  componentIdsToUpdate : Option (List String)
  mutationString : Option String
  variablesArg : Option Variables
  transportArg : Option Transport

/-- What a `mutate` call produces.  `rebuilt` records whether control entered
the re-derivation branch at lines 349-365 (`if (!mutationString)`). -/
structure MutateResult where
  outcome : Except JsError Unit
  effects : List Effect
  serverCall : Option MutationServerCall
  state : CashayState
  rebuilt : Bool

/-- Lines 366-375, shared by both branches of `mutate`: apply the enhancer
reduce (whose result `namespacedVariables` the source never uses), run the
optimistic listeners pass with the caller's variables and no server document,
then spawn `_mutateServer`.  On the document-reuse branch the source never
declares `componentIdsToUpdate` (it is `const`-bound inside the other branch
only, surviving to line 372 as an undefined var under the es2015 build of
package.json), so `none` is passed there. -/
def mutateTail (env : Env) (s : CashayState) (mutationName : String)
    (componentIdsToUpdate : Option (List String)) (mutationString : Option String)
    (enhancers : List VarEnhancer) (options : MutateOptions) (rebuilt : Bool) :
    MutateResult :=
  match applyVariableEnhancers enhancers options.vars with
  | .error e =>
    { outcome := .error e, effects := [], serverCall := none, state := s,
      rebuilt := rebuilt }
  | .ok _namespacedVariables =>
    let pass := addListenersHandler env s mutationName componentIdsToUpdate none
      options.vars
    match pass.outcome with
    | .error e =>
      { outcome := .error e, effects := pass.effects, serverCall := none,
        state := pass.state, rebuilt := rebuilt }
    | .ok _ =>
      { outcome := .ok (), effects := pass.effects,
        serverCall := some { mutationName := mutationName,
                             componentIdsToUpdate := componentIdsToUpdate,
                             mutationString := mutationString,
                             variablesArg := options.vars,
                             transportArg := options.transport },
        state := pass.state, rebuilt := rebuilt }

/-- Translation of `mutate(mutationName, possibleComponentIds, options)`, lines 335-376.
Destructuring an unknown mutationName's record throws (line 338); otherwise
either the cached merged document is reused (lines 340-348) or the
re-derivation branch resolves the active consumer set - throwing when it is
empty (line 352) - derives and namespaces missing singles, pushes their
enhancers, and calls `mergeMutations`, whose result the source discards, so
`mutationString` remains undefined on that branch. -/
def mutate (env : Env) (s : CashayState) (mutationName : String)
    (possibleComponentIds : Option JsArray) (options : MutateOptions) : MutateResult :=
  match lookupA s.cachedMutations mutationName with
  | none =>
    { outcome := .error (.typeError
        "Cannot destructure property fullMutation of undefined"),
      effects := [], serverCall := none, state := s, rebuilt := false }
  | some cachedMutation =>
    match resolveMutationString cachedMutation possibleComponentIds with
    | some ms =>
      mutateTail env s mutationName none (some ms) cachedMutation.variableEnhancers
        options false
    | none =>
      match makeComponentsToUpdate mutationName possibleComponentIds s.cachedQueries
          s.mutationHandlers with
      | none =>
        { outcome := .error (.genericError
            ("Mutation has no queries to update: " ++ mutationName)),
          effects := [], serverCall := none, state := s, rebuilt := true }
      | some componentIdsToUpdate =>
        match createMutationsFromQueries env mutationName s componentIdsToUpdate with
        | (s1, some e) =>
          { outcome := .error e, effects := [], serverCall := none, state := s1,
            rebuilt := true }
        | (s1, none) =>
          let entry := (lookupA s1.cachedMutations mutationName).getD newCachedMutation
          match collectSingles entry.singles componentIdsToUpdate with
          | none =>
            { outcome := .error (.typeError "Cannot destructure undefined single"),
              effects := [], serverCall := none, state := s1, rebuilt := true }
          | some (pairs, pushedEnhancers) =>
            let entry1 := { entry with
                variableEnhancers := entry.variableEnhancers ++ pushedEnhancers }
            let s2 := { s1 with
                cachedMutations := (upsert s1.cachedMutations mutationName entry1) }
            let _mergedDocument := env.mergeMutations pairs
            mutateTail env s2 mutationName (some componentIdsToUpdate) none
              entry1.variableEnhancers options true

/-- The result of the asynchronous `_mutateServer`. -/
structure MutateServerResult where
  outcome : Except JsError Unit
  state : CashayState
  effects : List Effect
  invocations : List HandlerInvocation

/-- Translation of `_mutateServer(mutationName, componentIdsToUpdate, mutationString,
options)`, lines 399-411.  Its first statement calls
`this._getTransport(options)`, but no `_getTransport` method is defined
anywhere in the class (and it extends nothing), so the call throws a TypeError
before the transport is ever invoked: the server round-trip of a mutation can
never complete.  The rest of the body - the server-document handler pass at
line 404 and the FIFO drain of the invalidation queue at lines 407-410 - is
unreachable. -/
def mutateServer (env : Env) (s : CashayState) (call : MutationServerCall)
    (reply : ServerReply) : MutateServerResult :=
  let _ := env
  let _ := call
  let _ := reply
  { outcome := .error (.typeError "this._getTransport is not a function"),
    state := s, effects := [], invocations := [] }

/-! ## Concrete fixtures used by witnesses and counterexamples -/

/-- The empty dependency graph, as initialized by the constructor. -/
def emptyDeps : DepState :=
  { normalizedDeps := fun _ => none, denormalizedDeps := fun _ _ => ∅ }

/-- A trivial collaborator environment for concrete evaluation. -/
def testEnv : Env where
  parse := fun _ => { argsState := .original }
  parseMutation := fun t => t
  createResponse := fun _ => { data := .null, isComplete := true, firstRun := false }
  normalizeResponse := fun _ _ => { entities := [], result := .null }
  denormalizeStoreData := fun _ => .null
  printMinimalQuery := fun _ _ => "minimal"
  stringifyJson := fun _ => "stringified"
  createMutationFromQuery := fun _ _ => "derived"
  namespaceMutation := fun ast _ =>
    { operation := ast, namespaceAST := ast, variableEnhancers := [] }
  mergeMutations := fun _ => "merged"
  buildMutationContext := fun _ v _ _ d =>
    { operation := { argsState := .original }, vars := v,
      paginationWords := defaultPaginationWords, idFieldName := "id",
      cashayDataState := d }

/-- An empty data-state snapshot. -/
def baseData : CashayData := { entities := [], vars := [] }

/-- A freshly constructed orchestrator state. -/
def baseState : CashayState where
  stateData := baseData
  cachedQueries := []
  cachedMutations := []
  mutationHandlers := []
  deps := emptyDeps
  willInvalidateListener := false
  invalidationQueue := []
  paginationWords := defaultPaginationWords
  idFieldName := "id"
  transport := "defaultTransport"
  mutationSchemaFieldNames := ["addPet"]

/-! ## Claim C1 -/

/-- An incomplete cached response for the C1 counterexample. -/
def incompleteResponse : Response :=
  { data := .str "cachedData", isComplete := false, firstRun := false }

def c1Query : CachedQuery :=
  { ast := { argsState := .original }, queryString := "q",
    options := { transport := "t", forceFetch := true,
                 paginationWords := none, idFieldName := none },
    response := some incompleteResponse, error := none }

def c1State : CashayState :=
  { baseState with cachedQueries := [("comp1", c1Query)] }

def c1Options : QueryOptions :=
  { componentId := some "comp1", forceFetch := false, vars := none,
    transport := none, mutationHandlers := none, customMutations := none }

/-- Claim C1 counterexample: with `forceFetch` false and a cached response
whose `isComplete` is false, `query` still short-circuits - it returns the
incomplete cached response synchronously, with no state change and no server
call.  The guard at line 142 tests only that a response exists, never
`isComplete`, contradicting "an incomplete cached response must not
short-circuit the read". -/
theorem query_short_circuits_on_incomplete_cache :
    query testEnv c1State "q" c1Options =
      .ok { response := incompleteResponse, state := c1State,
            serverCall := none, context := none } ∧
    incompleteResponse.isComplete = false := by
  constructor <;> rfl

/-- Claim C1 (amended): whenever any cached response exists for the resolved
componentId and `forceFetch` is false, `query` returns it immediately and
synchronously - regardless of its `isComplete` flag - with no state change and
no server call (lines 139-144). -/
theorem query_returns_any_cached_response (env : Env) (s : CashayState)
    (queryString : String) (options : QueryOptions) {cq : CachedQuery}
    {r : Response} (hff : options.forceFetch = false)
    (hcq : lookupA s.cachedQueries (options.componentId.getD queryString) = some cq)
    (hr : cq.response = some r) :
    query env s queryString options =
      .ok { response := r, state := s, serverCall := none, context := none } := by
  have hfast : fastResponse s (options.componentId.getD queryString)
      options.forceFetch = some r := by
    simp [fastResponse, hff, hcq, hr]
  unfold query
  simp only [hfast]

/-- A complete cached response, for the C1 witness. -/
def c1CompleteQuery : CachedQuery :=
  { c1Query with response := (some
      { data := .str "done", isComplete := true, firstRun := false }) }

def c1CompleteState : CashayState :=
  { baseState with cachedQueries := [("comp2", c1CompleteQuery)] }

theorem query_returns_any_cached_response_witness :
    query testEnv c1CompleteState "q2"
        { c1Options with componentId := some "comp2" } =
      .ok { response := { data := .str "done", isComplete := true, firstRun := false },
            state := c1CompleteState, serverCall := none, context := none } :=
  query_returns_any_cached_response testEnv c1CompleteState "q2"
    { c1Options with componentId := some "comp2" } rfl rfl rfl

/-! ## Claim C2 -/

/-- Any prefix of a sequence of `_addDeps` updates applied in order. -/
theorem foldl_addDeps_symmetric (updates : List (Finset DepKey × String)) :
    ∀ s : DepState, DepSymmetric s →
      DepSymmetric (updates.foldl (fun t u => addDeps t u.1 u.2) s) := by
  induction updates with
  | nil => intro s h; exact h
  | cons u rest ih =>
    intro s h
    exact ih _ (addDeps_preserves_symmetry s h u.1 u.2)

/-- Claim C2: starting from a symmetric dependency graph, `_addDeps` keeps it
symmetric after every update of any sequence, and each update changes exactly
the back-references forced by the diff: afterwards a componentId c is a member
of `denormalizedDeps[T][id]` iff (for the updated component) the key belongs
to the new set, and (for every other component) exactly as before - i.e. the
update removes the back-references unique to the old set and adds those unique
to the new set, touching nothing else. -/
theorem addDeps_symmetry (s : DepState) (h : DepSymmetric s) :
    (∀ nd cid, DepSymmetric (addDeps s nd cid)) ∧
    (∀ nd cid c e i, c ∈ (addDeps s nd cid).denormalizedDeps e i ↔
        (if c = cid then (e, i) ∈ nd else c ∈ s.denormalizedDeps e i)) ∧
    (∀ nd cid c, (addDeps s nd cid).normalizedDeps c =
        if c = cid then some nd else s.normalizedDeps c) ∧
    (∀ updates : List (Finset DepKey × String),
        DepSymmetric (updates.foldl (fun t u => addDeps t u.1 u.2) s)) := by
  refine ⟨fun nd cid => addDeps_preserves_symmetry s h nd cid,
    fun nd cid c e i => addDeps_mem_denormalizedDeps s h nd cid c e i,
    fun nd cid c => addDeps_normalizedDeps s nd cid c,
    fun updates => foldl_addDeps_symmetric updates s h⟩

theorem addDeps_symmetry_witness :
    DepSymmetric emptyDeps ∧
    (∀ nd cid, DepSymmetric (addDeps emptyDeps nd cid)) ∧
    (∀ updates : List (Finset DepKey × String),
        DepSymmetric (updates.foldl (fun t u => addDeps t u.1 u.2) emptyDeps)) := by
  have h : DepSymmetric emptyDeps := by
    intro c e i
    simp [emptyDeps]
  exact ⟨h, (addDeps_symmetry emptyDeps h).1, (addDeps_symmetry emptyDeps h).2.2.2⟩

/-! ## Claims C3, C4, C9: queryServer and the listeners pass -/

/-- The effects of a listeners pass are either nothing or exactly one bare
INSERT_NORMALIZED of the shortened accumulated changes (lines 469-480). -/
theorem addListenersHandler_effects_cases (env : Env) (s : CashayState)
    (mutationName : String) (cids : Option (List String))
    (doc : Option ServerReply) (vars : Option Variables) :
    (addListenersHandler env s mutationName cids doc vars).effects = [] ∨
    ∃ sh, shortenNormalizedResponse
        (addListenersHandler env s mutationName cids doc vars).allNormalizedChanges
        s.stateData = some sh ∧
      (addListenersHandler env s mutationName cids doc vars).effects =
        [.dispatch (.insertNormalized sh none none)] := by
  unfold addListenersHandler
  cases cids with
  | none => left; rfl
  | some cids =>
    rcases hL : handlerLoop env s.stateData (lookupA s.mutationHandlers mutationName)
        doc vars s { entities := [], result := .null } [] cids with ⟨out, s1, acc, inv⟩
    cases out with
    | error e => simp [hL]
    | ok u =>
      cases hs : shortenNormalizedResponse acc s.stateData with
      | none => simp [hL, hs]
      | some sh =>
        right
        exact ⟨sh, by simp [hL, hs], by simp [hL, hs]⟩

/-- Every queryServer run begins with the transport request carrying the
minimized query string and the context's variables (lines 203-207). -/
theorem queryServer_effects_head (env : Env) (s : CashayState) (call : ServerCall)
    (reply : ServerReply) :
    (queryServer env s call reply).effects.head? =
      some (.transportRequest call.transport (some call.queryString)
        call.context.vars) := by
  unfold queryServer
  cases hdata : reply.data with
  | none => cases hcq : lookupA s.cachedQueries call.componentId <;> simp [hcq]
  | some d =>
    cases hs : shortenNormalizedResponse (env.normalizeResponse d call.context)
        s.stateData with
    | none => simp [hs]
    | some sh =>
      cases hcq : lookupA s.cachedQueries call.componentId <;> simp [hs, hcq]

/-- Claim C3: when a server reply's normalized form shortens to nothing
against the current store, no INSERT_NORMALIZED action is dispatched - neither
by `queryServer` (the guard at line 231 returns before the dispatch at
line 255) nor by `_addListenersHandler` (the dispatch at lines 473-480 is
guarded on the shortened result). -/
theorem no_dispatch_when_shortened_empty :
    (∀ (env : Env) (s : CashayState) (call : ServerCall) (reply : ServerReply)
        (d : Doc), reply.data = some d →
        shortenNormalizedResponse (env.normalizeResponse d call.context)
          s.stateData = none →
        dispatchedActions (queryServer env s call reply).effects = []) ∧
    (∀ (env : Env) (s : CashayState) (mutationName : String)
        (cids : Option (List String)) (doc : Option ServerReply)
        (vars : Option Variables),
        shortenNormalizedResponse
          (addListenersHandler env s mutationName cids doc vars).allNormalizedChanges
          s.stateData = none →
        dispatchedActions
          (addListenersHandler env s mutationName cids doc vars).effects = []) := by
  constructor
  · intro env s call reply d hdata hshort
    unfold queryServer
    simp only [hdata, hshort]
    rfl
  · intro env s mutationName cids doc vars hshort
    rcases addListenersHandler_effects_cases env s mutationName cids doc vars with
      h | ⟨sh, hsh, _⟩
    · rw [h]; rfl
    · rw [hshort] at hsh
      exact absurd hsh (by simp)

def c3Context : Context :=
  buildExecutionContext { argsState := .original } baseData none
    defaultPaginationWords "id"

def c3Call : ServerCall :=
  { transport := "t", context := c3Context, queryString := "mq",
    componentId := "comp1" }

def c3Reply : ServerReply := { data := some (.str "echoed"), errors := none }

theorem no_dispatch_when_shortened_empty_witness :
    dispatchedActions (queryServer testEnv baseState c3Call c3Reply).effects = [] ∧
    dispatchedActions
      (addListenersHandler testEnv baseState "addPet" (some []) none none).effects
      = [] :=
  ⟨no_dispatch_when_shortened_empty.1 testEnv baseState c3Call c3Reply
      (.str "echoed") rfl rfl,
   no_dispatch_when_shortened_empty.2 testEnv baseState "addPet" (some []) none
      none rfl⟩

/-- Claim C4: a transport reply with errors and no data makes `queryServer`
record the stringified errors on the consumer's cached query record, dispatch
nothing, leave the dependency graph untouched, resolve normally (nothing is
thrown across the async boundary), and leave the previously cached response
unchanged (lines 211-216). -/
theorem queryServer_error_reply (env : Env) (s : CashayState) (call : ServerCall)
    (reply : ServerReply) {e : Doc} {cq : CachedQuery}
    (hdata : reply.data = none) (herr : reply.errors = some e)
    (hcq : lookupA s.cachedQueries call.componentId = some cq) :
    (queryServer env s call reply).outcome = .ok () ∧
    (queryServer env s call reply).state =
      { s with cachedQueries := (upsert s.cachedQueries call.componentId
          { cq with error := some (env.stringifyJson e) }) } ∧
    dispatchedActions (queryServer env s call reply).effects = [] ∧
    (queryServer env s call reply).state.deps = s.deps ∧
    lookupA (queryServer env s call reply).state.cachedQueries call.componentId =
      some { cq with error := some (env.stringifyJson e) } ∧
    ({ cq with error := some (env.stringifyJson e) } : CachedQuery).response =
      cq.response := by
  have h1 : queryServer env s call reply =
      { outcome := .ok (),
        state := { s with cachedQueries := (upsert s.cachedQueries call.componentId
            { cq with error := some (env.stringifyJson e) }) },
        effects := [.transportRequest call.transport (some call.queryString)
          call.context.vars],
        operation := call.context.operation } := by
    unfold queryServer
    simp only [hdata, hcq, herr, Option.map_some']
  rw [h1]
  exact ⟨rfl, rfl, rfl, rfl, lookupA_upsert s.cachedQueries call.componentId _, rfl⟩

def c4Query : CachedQuery :=
  { ast := { argsState := .original }, queryString := "q4",
    options := { transport := "t", forceFetch := true,
                 paginationWords := none, idFieldName := none },
    response := (some { data := .str "old", isComplete := true, firstRun := false }),
    error := none }

def c4State : CashayState :=
  { baseState with cachedQueries := [("comp4", c4Query)] }

def c4Call : ServerCall :=
  { transport := "t", context := c3Context, queryString := "mq4",
    componentId := "comp4" }

def c4Reply : ServerReply := { data := none, errors := some (.str "boom") }

theorem queryServer_error_reply_witness :
    (queryServer testEnv c4State c4Call c4Reply).outcome = .ok () ∧
    lookupA (queryServer testEnv c4State c4Call c4Reply).state.cachedQueries
        "comp4" =
      some { c4Query with error := some "stringified" } ∧
    dispatchedActions (queryServer testEnv c4State c4Call c4Reply).effects = [] := by
  have h := queryServer_error_reply testEnv c4State c4Call c4Reply rfl rfl rfl
  exact ⟨h.1, h.2.2.2.2.1, h.2.2.1⟩

/-! ## Claim C9 -/

def c9Context : Context :=
  buildExecutionContext { argsState := .minimized } baseData none
    defaultPaginationWords "id"

def c9Call : ServerCall :=
  { transport := "t", context := c9Context, queryString := "mq9",
    componentId := "comp1" }

def c9Reply : ServerReply := { data := some (.str "echoed"), errors := none }

/-- Claim C9 counterexample: a reply whose shortened normalized form is empty
returns from `queryServer` at line 231, before `rebuildOriginalArgs` runs at
line 238, so the minimized arguments are left on the consumer's canonical
operation on that return path - the run completes normally yet the operation
still carries the overwritten arguments. -/
theorem queryServer_skips_rebuild_on_empty_shorten :
    (queryServer testEnv baseState c9Call c9Reply).outcome = .ok () ∧
    (queryServer testEnv baseState c9Call c9Reply).operation.argsState =
      .minimized := by
  constructor <;> rfl

/-- Claim C9 (amended): the original argument values are restored before
`queryServer` finishes exactly on the success path - the reply carries data
and its shortened normalized form is non-empty; there `rebuildOriginalArgs`
runs at line 238.  (On the error path and the empty-shorten path the operation
is left as the call provided it.) -/
theorem queryServer_restores_args_on_success (env : Env) (s : CashayState)
    (call : ServerCall) (reply : ServerReply) {d : Doc} {nr : NormalizedResponse}
    (hdata : reply.data = some d)
    (hshort : shortenNormalizedResponse (env.normalizeResponse d call.context)
      s.stateData = some nr) :
    (queryServer env s call reply).operation =
      rebuildOriginalArgs call.context.operation := by
  unfold queryServer
  simp only [hdata, hshort]
  cases h : lookupA s.cachedQueries call.componentId <;> simp [h]

/-- An environment whose normalizer produces a fresh entity, so shortening
keeps it. -/
def env9 : Env :=
  { testEnv with normalizeResponse := fun _ _ =>
      { entities := [("Pet", [("1", [("name", .str "x")])])], result := .null } }

theorem queryServer_restores_args_on_success_witness :
    (queryServer env9 baseState c9Call c9Reply).operation =
      rebuildOriginalArgs c9Context.operation :=
  queryServer_restores_args_on_success env9 baseState c9Call c9Reply rfl rfl

/-! ## Claim C10 -/

/-- Claim C10: when the state container already stores variables for the
componentId, a cache-missing `query` call uses those stored variables - for
the execution context it builds, for the spawned server call's context, and
for the transport request `queryServer` will issue - and the caller-supplied
`options.variables` has no influence on the call at all (line 147:
`this.state.data.variables[componentId] || options.variables`). -/
theorem query_uses_stored_variables (env : Env) (s : CashayState)
    (queryString : String) (options : QueryOptions) (cid : String)
    {sv : Variables} {res : QueryResult}
    (hcid : options.componentId = some cid)
    (hsv : lookupA s.stateData.vars cid = some sv)
    (hslow : fastResponse s cid options.forceFetch = none)
    (hok : query env s queryString options = .ok res) :
    (∀ c, res.context = some c → c.vars = some sv) ∧
    (∀ sc, res.serverCall = some sc → sc.context.vars = some sv) ∧
    (∀ v, query env s queryString { options with vars := v } =
        query env s queryString options) ∧
    (∀ sc reply, res.serverCall = some sc →
        (queryServer env res.state sc reply).effects.head? =
          some (.transportRequest sc.transport (some sc.queryString) (some sv))) := by
  have hcid' : options.componentId.getD queryString = cid := by rw [hcid]; rfl
  have h3 : ∀ v, query env s queryString { options with vars := v } =
      query env s queryString options := by
    intro v
    unfold query
    simp only [hcid, hcid', Option.getD_some, hslow, hsv]
  have hspawn : ∀ (ff : Bool) (r : Response) (t : Transport) (ctx : Context)
      (qs mq cidX : String) (sc : ServerCall),
      (if r.isComplete then none
       else if ff || r.firstRun then
         some { transport := t, context := ctx, queryString := qs,
                componentId := cidX }
       else
         some { transport := t,
                context := { ctx with
                  operation := overwriteArgsForMinimalQuery ctx.operation },
                queryString := mq, componentId := cidX } :
        Option ServerCall) = some sc →
      sc.context.vars = ctx.vars := by
    intro ff r t ctx qs mq cidX sc hsc
    split at hsc
    · exact Option.noConfusion hsc
    · split at hsc
      · injection hsc with hsc
        subst hsc
        rfl
      · injection hsc with hsc
        subst hsc
        rfl
  unfold query at hok
  simp only [hcid', hslow, hsv] at hok
  split at hok
  · exact Except.noConfusion hok
  · injection hok with h
    subst h
    refine ⟨?_, ?_, h3, ?_⟩
    · intro c hc
      injection hc with hc
      subst hc
      rfl
    · intro sc hsc
      exact hspawn _ _ _ _ _ _ _ sc hsc
    · intro sc reply hsc
      have hv : sc.context.vars = some sv := hspawn _ _ _ _ _ _ _ sc hsc
      rw [queryServer_effects_head, hv]

/-- An environment whose first local attempt is an incomplete first run, so a
server call is spawned with the full query string. -/
def env10 : Env :=
  { testEnv with createResponse := fun _ =>
      { data := .null, isComplete := false, firstRun := true } }

def vars10 : Variables := [("petId", .num 1)]

def s10 : CashayState :=
  { baseState with stateData := { entities := [], vars := [("comp1", vars10)] } }

def opts10 : QueryOptions :=
  { componentId := some "comp1", forceFetch := false,
    vars := some [("ignored", .bool true)], transport := none,
    mutationHandlers := none, customMutations := none }

theorem query_uses_stored_variables_witness :
    query env10 s10 "q" { opts10 with vars := none } = query env10 s10 "q" opts10 :=
  (query_uses_stored_variables env10 s10 "q" opts10 "comp1" rfl rfl rfl rfl).2.2.1
    none

/-! ## Claim C5 -/

/-- On every arm, `mutateTail` hands its `rebuilt` argument through. -/
theorem mutateTail_rebuilt (env : Env) (s : CashayState) (mutationName : String)
    (cids : Option (List String)) (ms : Option String) (enh : List VarEnhancer)
    (options : MutateOptions) (b : Bool) :
    (mutateTail env s mutationName cids ms enh options b).rebuilt = b := by
  unfold mutateTail
  cases enh with
  | nil =>
    cases hp : (addListenersHandler env s mutationName cids none options.vars).outcome
      with
    | error e => simp [applyVariableEnhancers, hp]
    | ok u => simp [applyVariableEnhancers, hp]
  | cons e0 t => rfl

/-- Claim C5: whenever the resolved active consumer set for a mutation name is
empty (`makeComponentsToUpdate` yields nothing), `mutate` fails synchronously
with a thrown error - the explicit throw at line 352 on the resolution path,
or a TypeError on the degenerate paths (line 338's destructuring of an unknown
name, line 366's reduce, line 418's iteration over an undefined set) - and in
every case no transport request and no state-container write has occurred. -/
theorem mutate_throws_on_empty_consumer_set (env : Env) (s : CashayState)
    (mutationName : String) (possibleComponentIds : Option JsArray)
    (options : MutateOptions)
    (h : makeComponentsToUpdate mutationName possibleComponentIds s.cachedQueries
        s.mutationHandlers = none) :
    (∃ e, (mutate env s mutationName possibleComponentIds options).outcome =
        .error e) ∧
    (mutate env s mutationName possibleComponentIds options).effects = [] ∧
    (mutate env s mutationName possibleComponentIds options).serverCall = none := by
  cases hcm : lookupA s.cachedMutations mutationName with
  | none =>
    unfold mutate
    simp only [hcm]
    exact ⟨⟨_, rfl⟩, trivial, trivial⟩
  | some cm =>
    cases hms : resolveMutationString cm possibleComponentIds with
    | none =>
      unfold mutate
      simp only [hcm, hms, h]
      exact ⟨⟨_, rfl⟩, trivial, trivial⟩
    | some ms =>
      unfold mutate
      simp only [hcm, hms]
      unfold mutateTail
      cases henh : cm.variableEnhancers with
      | nil =>
        simp only [henh, applyVariableEnhancers]
        exact ⟨⟨_, rfl⟩, rfl, rfl⟩
      | cons e0 t =>
        simp only [henh, applyVariableEnhancers]
        exact ⟨⟨_, rfl⟩, trivial, trivial⟩

def s5 : CashayState :=
  { baseState with cachedMutations := [("addPet", newCachedMutation)] }

theorem mutate_throws_on_empty_consumer_set_witness :
    (∃ e, (mutate testEnv s5 "addPet" none
        { vars := none, transport := none }).outcome = .error e) ∧
    (mutate testEnv s5 "addPet" none { vars := none, transport := none }).effects
      = [] ∧
    (mutate testEnv s5 "addPet" none
        { vars := none, transport := none }).serverCall = none :=
  mutate_throws_on_empty_consumer_set testEnv s5 "addPet" none
    { vars := none, transport := none } rfl

/-! ## Claim C6 -/

/-- Claim C6: with the consumer-set comparison modelled per the spec, the
cached merged mutation document is reused exactly when one is cached and the
caller's componentId collection equals the cached one as a set - reference
equality suffices via `===` but is not required, the shallow-equality branch
accepts any set-equal collection - and any change to the set sends `mutate`
through the re-derivation branch (lines 339-365). -/
theorem mutation_document_reuse_iff_set_equal (env : Env) (s : CashayState)
    (mutationName : String) (p c : JsArray) {cm : CachedMutationEntry}
    (options : MutateOptions)
    (hcm : lookupA s.cachedMutations mutationName = some cm)
    (hc : cm.cachedComponentIds = some c)
    (href : p.ref = c.ref → p.elems = c.elems) :
    (∀ fm, resolveMutationString cm (some p) = some fm ↔
        (cm.fullMutation = some fm ∧ p.elems.toFinset = c.elems.toFinset)) ∧
    ((mutate env s mutationName (some p) options).rebuilt =
      !(cm.fullMutation.isSome && decide (p.elems.toFinset = c.elems.toFinset))) := by
  have h1 : ∀ fm, resolveMutationString cm (some p) = some fm ↔
      (cm.fullMutation = some fm ∧ p.elems.toFinset = c.elems.toFinset) := by
    intro fm
    unfold resolveMutationString
    cases hfm : cm.fullMutation with
    | none => simp
    | some f =>
      rw [hc]
      by_cases hr : p.ref = c.ref
      · have hset : p.elems.toFinset = c.elems.toFinset := by rw [href hr]
        simp [jsStrictEq, hr, hset]
      · have hr' : (p.ref == c.ref) = false := by simp [hr]
        by_cases hset : p.elems.toFinset = c.elems.toFinset
        · simp [jsStrictEq, arraysShallowEqual, hr', hset]
        · simp [jsStrictEq, arraysShallowEqual, hr', hset]
  refine ⟨h1, ?_⟩
  cases hms : resolveMutationString cm (some p) with
  | some ms =>
    rcases (h1 ms).1 hms with ⟨hfull, hset⟩
    have hd : decide (p.elems.toFinset = c.elems.toFinset) = true :=
      decide_eq_true hset
    unfold mutate
    simp only [hcm, hms, hfull, hd, mutateTail_rebuilt, Option.isSome_some,
      Bool.true_and, Bool.and_true, Bool.not_true]
  | none =>
    have hnb : (cm.fullMutation.isSome &&
        decide (p.elems.toFinset = c.elems.toFinset)) = false := by
      cases hf : cm.fullMutation with
      | none => simp
      | some f =>
        by_cases hset : p.elems.toFinset = c.elems.toFinset
        · have habs := (h1 f).2 ⟨hf, hset⟩
          rw [hms] at habs
          exact Option.noConfusion habs
        · simp [hset]
    rw [hnb]
    unfold mutate
    simp only [hcm, hms]
    cases hmk : makeComponentsToUpdate mutationName (some p) s.cachedQueries
        s.mutationHandlers with
    | none =>
      simp only [hmk]
      rfl
    | some cids =>
      simp only [hmk]
      rcases hcq : createMutationsFromQueries env mutationName s cids with ⟨s1, oe⟩
      cases oe with
      | none =>
        simp only [hcq]
        cases hcs : collectSingles
            ((lookupA s1.cachedMutations mutationName).getD newCachedMutation).singles
            cids with
        | none =>
          simp only [hcs]
          rfl
        | some pe =>
          rcases pe with ⟨pairs, pushed⟩
          simp only [hcs, mutateTail_rebuilt]
          rfl
      | some e0 =>
        simp only [hcq]
        rfl

def cm6 : CachedMutationEntry :=
  { fullMutation := some "mergedDoc", cachedComponentIds := some ⟨0, ["a", "b"]⟩,
    variableEnhancers := [], singles := [] }

def s6 : CashayState :=
  { baseState with cachedMutations := [("addPet", cm6)] }

def p6 : JsArray := ⟨1, ["b", "a"]⟩

theorem mutation_document_reuse_iff_set_equal_witness :
    resolveMutationString cm6 (some p6) = some "mergedDoc" ∧
    (mutate testEnv s6 "addPet" (some p6)
        { vars := none, transport := none }).rebuilt = false := by
  have h := mutation_document_reuse_iff_set_equal testEnv s6 "addPet" p6
    ⟨0, ["a", "b"]⟩ { vars := none, transport := none } rfl rfl
    (fun hr => absurd hr (by decide))
  refine ⟨(h.1 "mergedDoc").2 ⟨rfl, by decide⟩, ?_⟩
  rw [h.2]
  decide

/-! ## Claims C7 and C8 -/

def petQuery : CachedQuery :=
  { ast := { argsState := .original }, queryString := "petQ",
    options := { transport := "t", forceFetch := true,
                 paginationWords := none, idFieldName := none },
    response := (some { data := .str "petData", isComplete := true,
                        firstRun := false }),
    error := none }

/-- A handler that neither modifies the response nor invalidates. -/
def handler7 : MutationHandler :=
  fun _ _ _ _ => { modifiedResponse := none, calledInvalidate := false }

def s7 : CashayState :=
  { baseState with
      cachedQueries := [("c1", petQuery)]
      mutationHandlers := [("addPet", [("c1", handler7)])] }

def vars7 : Variables := [("name", .str "Fido")]

def call7 : MutationServerCall :=
  { mutationName := "addPet", componentIdsToUpdate := some ["c1"],
    mutationString := none, variablesArg := some vars7, transportArg := none }

def reply7 : ServerReply := { data := some (.str "serverDoc"), errors := none }

/-- Claim C7 evaluated at its failing input: the optimistic pass does invoke
the consumer's handler exactly once with (the caller's variables, no server
document), but the server half of the round trip can never happen -
`_mutateServer`'s first statement calls the nonexistent `this._getTransport`
and throws, before any transport request, so no handler is ever invoked a
second time with the server document. -/
theorem mutation_round_trip_cannot_complete :
    (addListenersHandler testEnv s7 "addPet" (some ["c1"]) none
        (some vars7)).invocations =
      [{ componentId := "c1", vars := some vars7, serverData := none }] ∧
    (addListenersHandler testEnv s7 "addPet" (some ["c1"]) none
        (some vars7)).outcome = .ok () ∧
    (mutateServer testEnv s7 call7 reply7).outcome =
      .error (.typeError "this._getTransport is not a function") ∧
    (mutateServer testEnv s7 call7 reply7).effects = [] ∧
    (mutateServer testEnv s7 call7 reply7).invocations = [] := by
  exact ⟨rfl, rfl, rfl, rfl, rfl⟩

/-- A handler that sets the invalidate signal. -/
def handler8 : MutationHandler :=
  fun _ _ _ _ => { modifiedResponse := none, calledInvalidate := true }

def s8 : CashayState :=
  { baseState with
      cachedQueries := [("c1", petQuery)]
      mutationHandlers := [("addPet", [("c1", handler8)])] }

/-- Claim C8 evaluated at its failing input: when a handler sets the
invalidate signal, the signal is indeed reset to false (line 434), but the
very next statement calls `.set` on `this._invalidationQueue` - an Array
(line 77) with no such method - so the pass throws a TypeError: nothing is
ever added to the requeue list, no write is dispatched, and the FIFO drain in
`_mutateServer` (itself unreachable) has nothing to process. -/
theorem invalidation_requeue_throws :
    (addListenersHandler testEnv s8 "addPet" (some ["c1"]) none
        (some vars7)).outcome =
      .error (.typeError "this._invalidationQueue.set is not a function") ∧
    (addListenersHandler testEnv s8 "addPet" (some ["c1"]) none
        (some vars7)).state.willInvalidateListener = false ∧
    (addListenersHandler testEnv s8 "addPet" (some ["c1"]) none
        (some vars7)).state.invalidationQueue = [] ∧
    (addListenersHandler testEnv s8 "addPet" (some ["c1"]) none
        (some vars7)).effects = [] ∧
    (addListenersHandler testEnv s8 "addPet" (some ["c1"]) none
        (some vars7)).invocations =
      [{ componentId := "c1", vars := some vars7, serverData := none }] := by
  exact ⟨rfl, rfl, rfl, rfl, rfl⟩

end Cashay
